import Mathlib

/-!
# Verification of the interview engine (oes registration monorepo)

Shallow embedding of the interview service's data model and operations:
step execution (`AskStep`), select-field validation and schema generation,
step deserialization dispatch, the bounded compilation cache, and the
HTTP routes for starting and updating interviews.

Definitions are translated from the Python source under `src/interview/`.
Parts of the program that are referenced by that source but whose files are
not in the tree (the base field-template class, the interview state class,
the update algorithm, the expression language) are modelled from the
specification; each such definition is marked `Modelled from the spec:` in
its doc comment.
-/

namespace Interview

/-- JSON-like values: the nested associative/array data the engine
manipulates (`data`, `context`, schemas, wire payloads). -/
inductive JSONValue where
  | null
  | bool (b : Bool)
  | num (n : Int)
  | str (s : String)
  | arr (xs : List JSONValue)
  | obj (kvs : List (String × JSONValue))

/-- A template evaluation context: a read-only mapping from names to values. -/
def TemplateContext : Type := List (String × JSONValue)

/-- Python truthiness of a JSON value, used when a condition coerces an
arbitrary evaluation result to boolean. -/
def truthy : JSONValue → Bool
  | .null => false
  | .bool b => b
  | .num n => n != 0
  | .str s => s != ""
  | .arr xs => !xs.isEmpty
  | .obj kvs => !kvs.isEmpty

/-- Modelled from the spec: the expression language (`oes.utils.template` is
not under `src/`). An expression evaluates to an arbitrary typed value
against a context; modelled as literals and context lookups, which is enough
to express "evaluates against a context" and "references an undefined path". -/
inductive Expression where
  | lit (v : JSONValue)
  | var (name : String)

/-- Evaluate an expression against a context; an undefined name yields null. -/
def Expression.evaluate (e : Expression) (ctx : TemplateContext) : JSONValue :=
  match e with
  | .lit v => v
  | .var name => (ctx.lookup name).getD .null

/-- Modelled from the spec: a template string (`oes.utils.template` is not
under `src/`): literal text interleaved with embedded expressions. -/
inductive TemplatePart where
  | lit (s : String)
  | expr (e : Expression)

/-- A compiled template: a sequence of parts rendered by concatenation. -/
def Template : Type := List TemplatePart

/-- String form of a JSON value for template interpolation. -/
def JSONValue.interp : JSONValue → String
  | .null => ""
  | .bool b => if b then "true" else "false"
  | .num n => toString n
  | .str s => s
  | .arr _ => "[...]"
  | .obj _ => "{...}"

/-- Render a template against a context. -/
def Template.render (t : Template) (ctx : TemplateContext) : String :=
  (t.map fun p =>
    match p with
    | .lit s => s
    | .expr e => (e.evaluate ctx).interp).foldl (· ++ ·) ""

/-- Modelled from the spec: `WhenCondition` (`oes.utils.logic` is not under
`src/`): one of always-true/always-false (a boolean constant), a single
expression coerced to boolean, a logical AND, or a logical OR. -/
inductive WhenCondition where
  | const (b : Bool)
  | expr (e : Expression)
  | logicAnd (cs : List WhenCondition)
  | logicOr (cs : List WhenCondition)

mutual

/-- Evaluate a condition against a context; AND/OR short-circuit
left-to-right, the empty AND is true and the empty OR is false. -/
def WhenCondition.evaluate (ctx : TemplateContext) : WhenCondition → Bool
  | .const b => b
  | .expr e => truthy (e.evaluate ctx)
  | .logicAnd cs => WhenCondition.evalAll ctx cs
  | .logicOr cs => WhenCondition.evalAny ctx cs

/-- Conjunction of a list of conditions, left-to-right. -/
def WhenCondition.evalAll (ctx : TemplateContext) : List WhenCondition → Bool
  | [] => true
  | c :: rest => WhenCondition.evaluate ctx c && WhenCondition.evalAll ctx rest

/-- Disjunction of a list of conditions, left-to-right. -/
def WhenCondition.evalAny (ctx : TemplateContext) : List WhenCondition → Bool
  | [] => false
  | c :: rest => WhenCondition.evaluate ctx c || WhenCondition.evalAny ctx rest

end

/-- A segment of a value pointer: a literal key or a literal index
(indirect segments are out of scope for the claims below). -/
inductive PointerSegment where
  | key (s : String)
  | index (n : Nat)

/-- A value pointer: an ordered sequence of path segments. -/
def ValuePointer : Type := List PointerSegment

/-- Modelled from the spec: a `Set` step's value, either a plain value or an
evaluable expression (`oes.utils.logic.ValueOrEvaluable`). -/
inductive ValueOrEvaluable where
  | value (v : JSONValue)
  | evaluable (e : Expression)

/-- A step that asks a question (from `step_types/ask.py`): the `ask` field
is the question id, `when` defaults to true. -/
structure AskStep where
  ask : String
  when : WhenCondition := .const true

/-- Modelled from the spec: `SetStep` (`step_types/set.py` is not under
`src/`): target pointer, value expression, condition. -/
structure SetStep where
  set : ValuePointer
  value : ValueOrEvaluable
  when : WhenCondition := .const true

/-- Modelled from the spec: `ExitStep` (`step_types/exit.py` is not under
`src/`): exit message and condition. -/
structure ExitStep where
  exit : Template
  when : WhenCondition := .const true

/-- A step: exactly one of Ask / Set / Exit. -/
inductive Step where
  | ask (s : AskStep)
  | set (s : SetStep)
  | exit (s : ExitStep)

/-- Modelled from the spec: `QuestionTemplate`
(`oes/interview/input/question.py` is not under `src/`): title template plus
a body of field schemas, rendered against a context into a `Question`. -/
structure QuestionTemplate where
  title : Template
  fieldsSchema : JSONValue := .obj []

/-- A rendered question: concrete JSON-Schema object. -/
structure Question where
  schema : JSONValue

/-- Render a question template against a context (`get_question`). -/
def QuestionTemplate.get_question (qt : QuestionTemplate) (ctx : TemplateContext) :
    Question :=
  ⟨.obj [("type", .str "object"), ("title", .str (qt.title.render ctx)),
         ("properties", qt.fieldsSchema)]⟩

/-- Modelled from the spec: `InterviewState`
(`oes/interview/interview/state.py` is not under `src/`): the immutable
per-interview value. Field names follow the source's usage sites
(`ask.py` reads `answered_question_ids`, `template_context` and writes
`current_question`; `routes.py` constructs it from `target`/`context`/`data`
and reads `completed`). -/
structure InterviewState where
  data : List (String × JSONValue) := []
  context : List (String × JSONValue) := []
  answered_question_ids : Finset String := ∅
  current_question : Option QuestionTemplate := none
  target : Option String := none
  completed : Bool := false

/-- Modelled from the spec: the merged template evaluation context
(context ∪ data); accumulated answer data shadows start-time context. -/
def InterviewState.template_context (s : InterviewState) : TemplateContext :=
  s.data ++ s.context

/-- `InterviewState.update`: functional record update (the source
reconstructs the attrs object with changed fields). -/
def InterviewState.update (s : InterviewState)
    (current_question : Option QuestionTemplate)
    (answered_question_ids : Finset String) : InterviewState :=
  { s with current_question := current_question,
           answered_question_ids := answered_question_ids }

/-- An `InterviewContext`: an `InterviewState` paired with the static
script (steps and question-id → template mapping). -/
structure InterviewContext where
  state : InterviewState
  question_templates : List (String × QuestionTemplate) := []
  steps : List Step := []

/-- `InterviewContext.with_state`: replace the state, keep the script. -/
def InterviewContext.with_state (c : InterviewContext) (s : InterviewState) :
    InterviewContext :=
  { c with state := s }

/-- Step content returned by a halting step: a question payload
(`AskResult`, carrying the schema) or an exit payload (`ExitResult`). -/
inductive StepContent where
  | question (schema : JSONValue)
  | exitResult (message : String)

/-- `UpdateResult`: a (possibly unchanged) context with optional content. -/
structure UpdateResult where
  context : InterviewContext
  content : Option StepContent := none

/-- The interview service's error taxonomy as distinct exception classes:
`InterviewError` (configuration defects, from `interview/error.py`) and
`ValidationError` (user-correctable input failures, from
`input/question.py`), plus pointer and evaluation errors. -/
inductive InterviewExc where
  | interviewError (msg : String)
  | validationError (msg : String)
  | pointerError (msg : String)
  | evaluationError (msg : String)

/-- `AskStep.__call__` from `step_types/ask.py`, line by line: a no-op if
the question id is already answered; a raised `InterviewError` if the id has
no template; otherwise render the question, record it as the current
question, add the id to `answered_question_ids`, and return the schema as
content. -/
def AskStep.call (step : AskStep) (context : InterviewContext) :
    Except InterviewExc UpdateResult :=
  if step.ask ∈ context.state.answered_question_ids then
    .ok ⟨context, none⟩
  else
    match context.question_templates.lookup step.ask with
    | none => .error (.interviewError ("No question with ID " ++ step.ask))
    | some question_template =>
      let question := question_template.get_question context.state.template_context
      let state := context.state.update (some question_template)
        (insert step.ask context.state.answered_question_ids)
      .ok ⟨context.with_state state, some (.question question.schema)⟩

/-! ## Select field (`input/field_types/select.py`) -/

/-- A select field option (`SelectFieldOption` plus its base
`SelectFieldOptionBase`, the latter modelled from the spec since
`field_template.py` is not under `src/`): an option id, a static `default`
flag (select.py line 19) and an optional conditional default expression. -/
structure SelectFieldOption where
  id : String
  label : String := ""
  default : Bool := false
  default_expr : Option Expression := none

/-- `SelectFieldTemplate` (select.py lines 27-50): options in declaration
order, choice-count bounds `min`/`max`, component and autocomplete. -/
structure SelectFieldTemplate where
  options : List SelectFieldOption := []
  min : Nat := 0
  max : Nat := 1
  component : String := "dropdown"
  autocomplete : Option String := none

/-- `multi` (select.py lines 42-44): `max > 1`. -/
def SelectFieldTemplate.multi (f : SelectFieldTemplate) : Bool :=
  decide (f.max > 1)

/-- `is_optional` (select.py lines 46-48): `min == 0`. -/
def SelectFieldTemplate.is_optional (f : SelectFieldTemplate) : Bool :=
  f.min == 0

/-- Modelled from the spec: `get_options` (from the base class, not under
`src/`): the options with their ids, in declaration (encounter) order. -/
def SelectFieldTemplate.get_options (f : SelectFieldTemplate)
    (_ctx : TemplateContext) : List (String × SelectFieldOption) :=
  f.options.map (fun o => (o.id, o))

/-- `_get_default` (select.py lines 74-80): the conditional default
expression evaluated against the context when present, else the static
default flag. -/
def SelectFieldTemplate.get_default (_f : SelectFieldTemplate)
    (opt : SelectFieldOption) (ctx : TemplateContext) : Bool :=
  match opt.default_expr with
  | some e => truthy (e.evaluate ctx)
  | none => opt.default

/-- The option ids whose default is declared for this context, collected in
encounter order (the list comprehension in select.py lines 55-57). -/
def SelectFieldTemplate.declared_defaults (f : SelectFieldTemplate)
    (ctx : TemplateContext) : List String :=
  ((f.get_options ctx).filter (fun p => f.get_default p.2 ctx)).map Prod.fst

/-- Assignment into a string-keyed mapping with Python dict semantics:
replace in place when the key exists, append otherwise. -/
def setKey : List (String × JSONValue) → String → JSONValue →
    List (String × JSONValue)
  | [], k, v => [(k, v)]
  | (k1, v1) :: rest, k, v =>
    if k1 == k then (k, v) :: rest else (k1, v1) :: setKey rest k v

/-- Modelled from the spec: the base select schema fragment produced by
`super().get_schema(context)` (base class not under `src/`): the accepted
shape, no `default` or item-bound keys. -/
def SelectFieldTemplate.base_schema (f : SelectFieldTemplate)
    (_ctx : TemplateContext) : List (String × JSONValue) :=
  [("type", .str (if f.multi then "array" else "string")),
   ("x-type", .str "select")]

/-- `get_schema` (select.py lines 52-72): base schema, then for multi
fields `minItems`/`maxItems` and the collected defaults as an array, for
single fields the first collected default; then autocomplete and the
component key. -/
def SelectFieldTemplate.get_schema (f : SelectFieldTemplate)
    (ctx : TemplateContext) : List (String × JSONValue) :=
  let schema0 := f.base_schema ctx
  let defaults := f.declared_defaults ctx
  let schema1 :=
    if f.multi then
      let s1 := setKey schema0 "minItems" (.num f.min)
      let s2 := setKey s1 "maxItems" (.num f.max)
      if defaults.isEmpty then s2
      else setKey s2 "default" (.arr (defaults.map JSONValue.str))
    else
      match defaults with
      | [] => schema0
      | d :: _ => setKey schema0 "default" (.str d)
  let schema2 :=
    match f.autocomplete with
    | some a => setKey schema1 "x-autoComplete" (.str a)
    | none => schema1
  setKey schema2 "x-component" (.str f.component)

/-- A submitted answer for a select field: absent, a single option id
(non-multi fields), or a list of option ids (multi fields). -/
inductive SubmittedValue where
  | nullv
  | single (id : String)
  | many (ids : List String)

/-- The number of selected choices a submitted value represents. -/
def SubmittedValue.count : SubmittedValue → Nat
  | .nullv => 0
  | .single _ => 1
  | .many ids => ids.length

/-- Modelled from the spec: the base validators yielded by
`super().get_validators(context)` (base class not under `src/`): optional
fields accept null, required fields reject it; a choice must be among the
declared option ids; a non-multi field takes a single id, a multi field a
list of ids. -/
def SelectFieldTemplate.validate_base (f : SelectFieldTemplate)
    (v : SubmittedValue) : Except String SubmittedValue :=
  match v with
  | .nullv => if f.is_optional then .ok v else .error "A value is required"
  | .single id =>
    if f.multi then .error "Invalid value"
    else if f.options.any (fun o => o.id == id) then .ok v
    else .error "Invalid choice"
  | .many ids =>
    if !f.multi then .error "Invalid value"
    else if ids.all (fun id => f.options.any (fun o => o.id == id)) then .ok v
    else .error "Invalid choice"

/-- `_validate_size` (select.py lines 89-94): reject fewer than `min` or
more than `max` selected values, with a descriptive message. -/
def SelectFieldTemplate.validate_size (f : SelectFieldTemplate)
    (values : List String) : Except String (List String) :=
  if values.length < f.min then .error ("Choose at least " ++ toString f.min)
  else if values.length > f.max then .error ("Choose at most " ++ toString f.max)
  else .ok values

/-- The field's validators run in order (`get_validators`, select.py lines
82-87): the base validators, then `_validate_size` only when the field is
multi. -/
def SelectFieldTemplate.validate (f : SelectFieldTemplate)
    (v : SubmittedValue) : Except String SubmittedValue :=
  match f.validate_base v with
  | .error msg => .error msg
  | .ok v1 =>
    if f.multi then
      match v1 with
      | .many ids =>
        match f.validate_size ids with
        | .error msg => .error msg
        | .ok ids1 => .ok (.many ids1)
      | other => .ok other
    else .ok v1

/-! ## Concrete fixtures for witnesses and counterexamples -/

/-- A concrete question template. -/
def qTplOne : QuestionTemplate := { title := [.lit "Question One"] }

/-- A concrete interview context: fresh state, one question `q1`. -/
def ctxFresh : InterviewContext :=
  { state := {}, question_templates := [("q1", qTplOne)] }

/-- A concrete interview context whose state already lists `q1` as answered. -/
def ctxAnswered : InterviewContext :=
  { state := { answered_question_ids := {"q1"} },
    question_templates := [("q1", qTplOne)] }

/-- A concrete interview context with an empty question-template mapping. -/
def ctxNoTemplate : InterviewContext := { state := {} }

/-- The result of asking `q1` on `ctxFresh`, written out. -/
def askedOnceResult : UpdateResult :=
  ⟨{ state := { answered_question_ids := insert "q1" (∅ : Finset String),
                current_question := some qTplOne },
     question_templates := [("q1", qTplOne)] },
   some (.question (.obj [("type", .str "object"),
                          ("title", .str "Question One"),
                          ("properties", .obj [])]))⟩

example : AskStep.call { ask := "q1" } ctxFresh = .ok askedOnceResult := rfl

/-! ## C1 -/

/-- C1 (counterexample): invoking the Ask step for `q1` on a fresh context
yields a state in which the current question is set while `q1` is already a
member of `answered_question_ids` — the id is added at the moment the
question is asked, refuting the claimed invariant. -/
theorem askStep_sets_current_and_answers_id_together :
    (AskStep.call { ask := "q1" } ctxFresh).map
        (fun r => (r.context.state.current_question.isSome,
                   decide ("q1" ∈ r.context.state.answered_question_ids)))
      = .ok (true, true) := rfl

/-- C1 (amended): whenever an Ask step invocation returns question content,
the resulting state records the question template as current and the
question id is already a member of `answered_question_ids`: the id is added
when the question is asked, not when a response is accepted. -/
theorem askStep_answered_ids_added_at_ask_time (step : AskStep)
    (ctx : InterviewContext) (r : UpdateResult)
    (h : AskStep.call step ctx = .ok r) (hc : r.content.isSome = true) :
    r.context.state.current_question.isSome = true ∧
      step.ask ∈ r.context.state.answered_question_ids := by
  unfold AskStep.call at h
  by_cases hmem : step.ask ∈ ctx.state.answered_question_ids
  · simp only [hmem, if_true] at h
    cases h
    simp at hc
  · cases hlook : ctx.question_templates.lookup step.ask with
    | none => simp [hmem, hlook] at h
    | some qt =>
      simp only [hmem, if_false, hlook] at h
      cases h
      refine ⟨rfl, ?_⟩
      exact Finset.mem_insert_self _ _

/-- Witness for C1's amended theorem at the concrete fresh context. -/
theorem askStep_answered_ids_added_at_ask_time_witness :
    AskStep.call { ask := "q1" } ctxFresh = .ok askedOnceResult ∧
      askedOnceResult.content.isSome = true ∧
      (askedOnceResult.context.state.current_question.isSome = true ∧
        "q1" ∈ askedOnceResult.context.state.answered_question_ids) :=
  ⟨rfl, rfl,
    askStep_answered_ids_added_at_ask_time { ask := "q1" } ctxFresh
      askedOnceResult rfl rfl⟩

/-! ## C2 -/

/-- C2 (counterexample): an Ask step whose `when` condition evaluates to
false, applied to a context where its question is unanswered, is *not*
skipped: the invocation returns question content and a changed state. -/
theorem askStep_false_condition_not_skipped :
    WhenCondition.evaluate ctxFresh.state.template_context (.const false)
        = false ∧
      (AskStep.call { ask := "q1", when := .const false } ctxFresh).map
          (fun r => r.content.isSome) = .ok true ∧
      "q1" ∉ ctxFresh.state.answered_question_ids ∧
      (AskStep.call { ask := "q1", when := .const false } ctxFresh).map
          (fun r => decide ("q1" ∈ r.context.state.answered_question_ids))
        = .ok true :=
  ⟨rfl, rfl, by decide, rfl⟩

/-- C2 (amended): invoking an Ask step does not evaluate its `when`
condition at all — the result of `AskStep.__call__` is the same for any two
values of the `when` field; skipping a step on a false condition is not
performed by the step invocation itself. -/
theorem askStep_result_independent_of_when (ask : String)
    (w1 w2 : WhenCondition) (ctx : InterviewContext) :
    AskStep.call { ask := ask, when := w1 } ctx
      = AskStep.call { ask := ask, when := w2 } ctx := rfl

/-! ## C3 -/

/-- C3: an Ask step whose question id is already in
`answered_question_ids` is a no-op: the invocation returns the context
unchanged with no content, whatever the `when` condition is. -/
theorem askStep_already_answered_noop (step : AskStep)
    (ctx : InterviewContext)
    (h : step.ask ∈ ctx.state.answered_question_ids) :
    AskStep.call step ctx = .ok ⟨ctx, none⟩ := by
  unfold AskStep.call
  simp [h]

/-- Witness for C3 at a concrete context with `q1` answered and a false
condition. -/
theorem askStep_already_answered_noop_witness :
    "q1" ∈ ctxAnswered.state.answered_question_ids ∧
      AskStep.call { ask := "q1", when := .const false } ctxAnswered
        = .ok ⟨ctxAnswered, none⟩ :=
  ⟨by decide,
    askStep_already_answered_noop { ask := "q1", when := .const false }
      ctxAnswered (by decide)⟩

/-! ## C4 -/

/-- C4: an Ask step whose question id has no template (and is not already
answered) fails with an `InterviewError` (a fatal configuration error),
and never with a `ValidationError` (a user-facing validation failure). -/
theorem askStep_unknown_question_config_error (step : AskStep)
    (ctx : InterviewContext)
    (h1 : step.ask ∉ ctx.state.answered_question_ids)
    (h2 : ctx.question_templates.lookup step.ask = none) :
    AskStep.call step ctx
        = .error (.interviewError ("No question with ID " ++ step.ask)) ∧
      ∀ msg, AskStep.call step ctx ≠ .error (.validationError msg) := by
  constructor
  · unfold AskStep.call
    simp [h1, h2]
  · intro msg
    unfold AskStep.call
    simp [h1, h2]

/-- Witness for C4 at a concrete context with no template for `q1`. -/
theorem askStep_unknown_question_config_error_witness :
    "q1" ∉ ctxNoTemplate.state.answered_question_ids ∧
      ctxNoTemplate.question_templates.lookup "q1" = none ∧
      (AskStep.call { ask := "q1" } ctxNoTemplate
          = .error (.interviewError ("No question with ID " ++ "q1")) ∧
        ∀ msg, AskStep.call { ask := "q1" } ctxNoTemplate
          ≠ .error (.validationError msg)) :=
  ⟨by decide, rfl,
    askStep_unknown_question_config_error { ask := "q1" } ctxNoTemplate
      (by decide) rfl⟩

/-! ## C5 / C6: select-field properties -/

/-- A concrete single-choice select field: two options, `min = 1, max = 1`. -/
def selOneField : SelectFieldTemplate :=
  { options := [{ id := "a" }, { id := "b" }], min := 1, max := 1 }

example : selOneField.validate .nullv = .error "A value is required" := rfl
example : selOneField.validate (.many ["a", "b"]) = .error "Invalid value" := rfl
example : selOneField.validate (.single "a") = .ok (.single "a") := rfl

/-- C5: a submitted list of choices whose length falls outside
`[min, max]` is rejected by the field's validators (with a message); in
particular the `min = 1, max = 1` field rejects 0 selections, rejects 2
selections, and accepts exactly 1. -/
theorem selectField_choice_count_bounds (f : SelectFieldTemplate)
    (ids : List String)
    (h : ids.length < f.min ∨ f.max < ids.length) :
    (∃ msg, f.validate (.many ids) = .error msg) ∧
      selOneField.validate .nullv = .error "A value is required" ∧
      selOneField.validate (.many ["a", "b"]) = .error "Invalid value" ∧
      selOneField.validate (.single "a") = .ok (.single "a") := by
  refine ⟨?_, rfl, rfl, rfl⟩
  by_cases hm : f.multi = true
  · by_cases hall :
        ids.all (fun id => f.options.any (fun o => o.id == id)) = true
    · have hbase : f.validate_base (.many ids) = .ok (.many ids) := by
        unfold SelectFieldTemplate.validate_base
        simp [hm, hall]
      by_cases hlt : ids.length < f.min
      · refine ⟨"Choose at least " ++ toString f.min, ?_⟩
        unfold SelectFieldTemplate.validate
        rw [hbase]
        simp only [hm, if_true]
        unfold SelectFieldTemplate.validate_size
        simp [hlt]
      · have hgt : ids.length > f.max := by omega
        refine ⟨"Choose at most " ++ toString f.max, ?_⟩
        unfold SelectFieldTemplate.validate
        rw [hbase]
        simp only [hm, if_true]
        unfold SelectFieldTemplate.validate_size
        simp [hlt, hgt]
    · have hbase : f.validate_base (.many ids) = .error "Invalid choice" := by
        unfold SelectFieldTemplate.validate_base
        simp [hm, hall]
      refine ⟨"Invalid choice", ?_⟩
      unfold SelectFieldTemplate.validate
      rw [hbase]
  · have hbase : f.validate_base (.many ids) = .error "Invalid value" := by
      unfold SelectFieldTemplate.validate_base
      simp [hm]
    refine ⟨"Invalid value", ?_⟩
    unfold SelectFieldTemplate.validate
    rw [hbase]

/-- Witness for C5 at the concrete `min = 1, max = 1` field and a
two-element choice list. -/
theorem selectField_choice_count_bounds_witness :
    ((["a", "b"] : List String).length < selOneField.min ∨
        selOneField.max < (["a", "b"] : List String).length) ∧
      ((∃ msg, selOneField.validate (.many ["a", "b"]) = .error msg) ∧
        selOneField.validate .nullv = .error "A value is required" ∧
        selOneField.validate (.many ["a", "b"]) = .error "Invalid value" ∧
        selOneField.validate (.single "a") = .ok (.single "a")) :=
  ⟨Or.inr (by decide),
    selectField_choice_count_bounds selOneField ["a", "b"] (Or.inr (by decide))⟩

/-- Looking up the key just written by `setKey` yields the new value. -/
theorem lookup_setKey_self (kvs : List (String × JSONValue)) (k : String)
    (v : JSONValue) : (setKey kvs k v).lookup k = some v := by
  induction kvs with
  | nil => simp [setKey, List.lookup]
  | cons p rest ih =>
    obtain ⟨k1, v1⟩ := p
    by_cases hk : k1 = k
    · subst hk
      simp [setKey, List.lookup]
    · have hbk : (k == k1) = false := beq_eq_false_iff_ne.mpr (Ne.symm hk)
      simp [setKey, List.lookup, hk, hbk, ih]

/-- `setKey` for a different key leaves a lookup unchanged. -/
theorem lookup_setKey_ne (kvs : List (String × JSONValue)) {k k' : String}
    (h : k ≠ k') (v : JSONValue) :
    (setKey kvs k' v).lookup k = kvs.lookup k := by
  have hbk : (k == k') = false := beq_eq_false_iff_ne.mpr h
  induction kvs with
  | nil => simp [setKey, List.lookup, hbk]
  | cons p rest ih =>
    obtain ⟨k1, v1⟩ := p
    by_cases hk : k1 = k'
    · subst hk
      simp [setKey, List.lookup, hbk]
    · simp [setKey, List.lookup, hk, ih]

/-- Looking up `default` in a select base schema finds nothing. -/
theorem base_schema_no_default (f : SelectFieldTemplate)
    (ctx : TemplateContext) : (f.base_schema ctx).lookup "default" = none := rfl

/-- C6: the declared option defaults are collected in declaration
(encounter) order (a sublist of the option ids in order), and the schema's
`default` is the collected ids as an array when the field is multi
(`max > 1`), and the single first collected id when it is not
(`max <= 1`); no `default` key is emitted when no default is declared. -/
theorem selectField_schema_default_encounter_order (f : SelectFieldTemplate)
    (ctx : TemplateContext) :
    List.Sublist (f.declared_defaults ctx) ((f.get_options ctx).map Prod.fst) ∧
      (f.get_schema ctx).lookup "default"
        = (if f.multi then
             (if (f.declared_defaults ctx).isEmpty then none
              else some (.arr ((f.declared_defaults ctx).map JSONValue.str)))
           else ((f.declared_defaults ctx).head?.map JSONValue.str)) := by
  have hxc : ("default" : String) ≠ "x-component" := by decide
  have hxa : ("default" : String) ≠ "x-autoComplete" := by decide
  have hmax : ("default" : String) ≠ "maxItems" := by decide
  have hmin : ("default" : String) ≠ "minItems" := by decide
  constructor
  · exact List.Sublist.map _ (List.filter_sublist _)
  · simp only [SelectFieldTemplate.get_schema]
    rw [lookup_setKey_ne _ hxc]
    cases hac : f.autocomplete with
    | some a =>
      rw [lookup_setKey_ne _ hxa]
      by_cases hm : f.multi = true
      · simp only [hm, if_true]
        by_cases he : (f.declared_defaults ctx).isEmpty = true
        · simp only [he, if_true]
          rw [lookup_setKey_ne _ hmax, lookup_setKey_ne _ hmin]
          exact base_schema_no_default f ctx
        · simp only [he, Bool.false_eq_true, if_false]
          rw [lookup_setKey_self]
      · simp only [Bool.not_eq_true] at hm
        simp only [hm, if_false]
        cases hd : f.declared_defaults ctx with
        | nil => exact base_schema_no_default f ctx
        | cons d ds => simp [lookup_setKey_self]
    | none =>
      by_cases hm : f.multi = true
      · simp only [hm, if_true]
        by_cases he : (f.declared_defaults ctx).isEmpty = true
        · simp only [he, if_true]
          rw [lookup_setKey_ne _ hmax, lookup_setKey_ne _ hmin]
          exact base_schema_no_default f ctx
        · simp only [he, Bool.false_eq_true, if_false]
          rw [lookup_setKey_self]
      · simp only [Bool.not_eq_true] at hm
        simp only [hm, if_false]
        cases hd : f.declared_defaults ctx with
        | nil => exact base_schema_no_default f ctx
        | cons d ds => simp [lookup_setKey_self]

/-! ## C8: step deserialization dispatch
(`interview/serialization.py`, `make_step_structure_fn`) -/

/-- Key membership in a wire mapping (Python `"k" in v`). -/
def hasKey (kvs : List (String × JSONValue)) (k : String) : Bool :=
  kvs.any (fun p => p.1 == k)

/-- Modelled from the spec: structuring a `when` condition from wire data
(`make_when_condition_structure_fn` is not under `src/`): absent means
always-true, booleans are constants, a string is a compiled expression. -/
def structure_when : Option JSONValue → Except String WhenCondition
  | none => .ok (.const true)
  | some (.bool b) => .ok (.const b)
  | some (.str e) => .ok (.expr (.var e))
  | some _ => .error "Invalid condition"

/-- Modelled from the spec: `converter.structure(v, AskStep)` — the declared
field mapping of the Ask variant: `ask` is the question id string, `when`
is optional. -/
def structure_ask_step (kvs : List (String × JSONValue)) :
    Except String AskStep :=
  match kvs.lookup "ask" with
  | some (.str id) =>
    (structure_when (kvs.lookup "when")).map (fun w => { ask := id, when := w })
  | _ => .error "Invalid ask step"

/-- Modelled from the spec: `converter.structure(v, ExitStep)` — `exit` is
the message template, `when` is optional. -/
def structure_exit_step (kvs : List (String × JSONValue)) :
    Except String ExitStep :=
  match kvs.lookup "exit" with
  | some (.str msg) =>
    (structure_when (kvs.lookup "when")).map
      (fun w => { exit := [TemplatePart.lit msg], when := w })
  | _ => .error "Invalid exit step"

/-- Modelled from the spec: `converter.structure(v, SetStep)` — `set` is
the target pointer, `value` the written value, `when` optional. -/
def structure_set_step (kvs : List (String × JSONValue)) :
    Except String SetStep :=
  match kvs.lookup "set" with
  | some (.str ptr) =>
    match kvs.lookup "value" with
    | some v =>
      (structure_when (kvs.lookup "when")).map
        (fun w => { set := [PointerSegment.key ptr], value := .value v, when := w })
    | none => .error "Invalid set step"
  | _ => .error "Invalid set step"

/-- The `structure` closure returned by `make_step_structure_fn`
(`interview/serialization.py` lines 15-23): a mapping containing "ask"
structures as an `AskStep`, else one containing "exit" as an `ExitStep`,
else one containing "set" as a `SetStep`; anything else raises
`ValueError("Invalid step: ...")`. -/
def structure_step (v : JSONValue) : Except String Step :=
  match v with
  | .obj kvs =>
    if hasKey kvs "ask" then (structure_ask_step kvs).map Step.ask
    else if hasKey kvs "exit" then (structure_exit_step kvs).map Step.exit
    else if hasKey kvs "set" then (structure_set_step kvs).map Step.set
    else .error "Invalid step"
  | _ => .error "Invalid step"

/-- C8: step structuring resolves the variant by discriminant key with
priority ask, then exit, then set: a successfully structured step's variant
matches the discriminant present in the mapping; a mapping with none of the
three keys, or a non-mapping, fails with the invalid-step error; concrete
instances exercise each variant and the ask-over-set priority. -/
theorem structure_step_resolves_by_discriminant
    (kvs : List (String × JSONValue)) (v : JSONValue)
    (hv : ∀ l, v ≠ .obj l) :
    (∀ s, structure_step (.obj kvs) = .ok s →
      (match s with
       | .ask _ => hasKey kvs "ask" = true
       | .exit _ => hasKey kvs "exit" = true ∧ hasKey kvs "ask" = false
       | .set _ => hasKey kvs "set" = true ∧ hasKey kvs "ask" = false ∧
           hasKey kvs "exit" = false)) ∧
      (hasKey kvs "ask" = false → hasKey kvs "exit" = false →
        hasKey kvs "set" = false →
        structure_step (.obj kvs) = .error "Invalid step") ∧
      structure_step v = .error "Invalid step" ∧
      structure_step (.obj [("ask", .str "q1"), ("set", .str "x")])
        = .ok (.ask { ask := "q1" }) ∧
      structure_step (.obj [("exit", .str "Done"), ("set", .str "x")])
        = .ok (.exit { exit := [.lit "Done"] }) ∧
      structure_step (.obj [("set", .str "x"), ("value", .num 1)])
        = .ok (.set { set := [.key "x"], value := .value (.num 1) }) := by
  refine ⟨?_, ?_, ?_, rfl, rfl, rfl⟩
  · intro s hs
    unfold structure_step at hs
    by_cases h1 : hasKey kvs "ask" = true
    · simp only [h1, if_true] at hs
      cases ha : structure_ask_step kvs with
      | error msg => rw [ha] at hs; cases hs
      | ok a =>
        rw [ha] at hs
        cases hs
        exact h1
    · simp only [Bool.not_eq_true] at h1
      simp only [h1, Bool.false_eq_true, if_false] at hs
      by_cases h2 : hasKey kvs "exit" = true
      · simp only [h2, if_true] at hs
        cases he : structure_exit_step kvs with
        | error msg => rw [he] at hs; cases hs
        | ok e =>
          rw [he] at hs
          cases hs
          exact ⟨h2, h1⟩
      · simp only [Bool.not_eq_true] at h2
        simp only [h2, Bool.false_eq_true, if_false] at hs
        by_cases h3 : hasKey kvs "set" = true
        · simp only [h3, if_true] at hs
          cases hst : structure_set_step kvs with
          | error msg => rw [hst] at hs; cases hs
          | ok st =>
            rw [hst] at hs
            cases hs
            exact ⟨h3, h1, h2⟩
        · simp only [Bool.not_eq_true] at h3
          simp only [h3, Bool.false_eq_true, if_false] at hs
          cases hs
  · intro h1 h2 h3
    unfold structure_step
    simp only [h1, h2, h3, Bool.false_eq_true, if_false]
  · cases v with
    | obj l => exact absurd rfl (hv l)
    | null => rfl
    | bool b => rfl
    | num n => rfl
    | str s => rfl
    | arr xs => rfl

/-- Witness for C8 at a concrete non-mapping and a keyless mapping. -/
theorem structure_step_resolves_by_discriminant_witness :
    structure_step (.str "x") = .error "Invalid step" ∧
      structure_step (.obj [("foo", .null)]) = .error "Invalid step" :=
  ⟨(structure_step_resolves_by_discriminant [("foo", .null)] (.str "x")
      (fun _ h => JSONValue.noConfusion h)).2.2.1,
    (structure_step_resolves_by_discriminant [("foo", .null)] (.str "x")
      (fun _ h => JSONValue.noConfusion h)).2.1 rfl rfl rfl⟩


/-! ## C9: the bounded compilation cache
(`oes/interview/serialization.py`, `configure_converter`) -/

/-- A bounded memoization cache for compiled structure functions, keyed by
source text (`functools.lru_cache` applied in `configure_converter`,
serialization.py lines 51-61): entries ordered most-recently-used first. -/
structure LruCache (β : Type) where
  entries : List (String × β) := []

/-- One call through the cache: a hit returns the stored value and moves
its entry to the front; a miss invokes the underlying function, stores the
result at the front, and evicts the least-recently-used (last) entry when
the bound would be exceeded. Returns the value, the new cache, and whether
the underlying function was invoked. -/
def LruCache.getOrCompute {β : Type} (f : String → β) (maxsize : Nat)
    (c : LruCache β) (k : String) : β × LruCache β × Bool :=
  match c.entries.lookup k with
  | some v => (v, ⟨(k, v) :: c.entries.eraseP (fun p => p.1 == k)⟩, false)
  | none =>
    let v := f k
    let es := (k, v) :: c.entries
    (v, ⟨if es.length > maxsize then es.dropLast else es⟩, true)

/-- The bound used for every compiled structure function in
`configure_converter`: `maxsize=1024`. -/
def structureCacheMaxsize : Nat := 1024

/-- The cached structure function: `functools.lru_cache(maxsize=1024)(fn)`
with the cache state passed explicitly. -/
def cachedStructureFn {β : Type} (f : String → β) (c : LruCache β)
    (k : String) : β × LruCache β × Bool :=
  LruCache.getOrCompute f structureCacheMaxsize c k

/-- A cache is consistent with the underlying function when every stored
entry holds the function's value at its key. -/
def LruCache.Consistent {β : Type} (f : String → β) (c : LruCache β) : Prop :=
  ∀ p ∈ c.entries, p.2 = f p.1

/-- A successful association-list lookup locates a stored pair. -/
theorem lookup_mem {β : Type} {l : List (String × β)} {k : String} {v : β}
    (h : l.lookup k = some v) : (k, v) ∈ l := by
  induction l with
  | nil => cases h
  | cons p rest ih =>
    obtain ⟨k1, v1⟩ := p
    by_cases hk : k = k1
    · subst hk
      simp [List.lookup] at h
      subst h
      exact List.mem_cons_self _ _
    · have hbk : (k == k1) = false := beq_eq_false_iff_ne.mpr hk
      simp [List.lookup, hbk] at h
      exact List.mem_cons_of_mem _ (ih h)

/-- A cache hit returns the stored value, moves the entry to the front and
does not invoke the underlying function. -/
theorem LruCache.getOrCompute_hit {β : Type} (f : String → β) (maxsize : Nat)
    (c : LruCache β) (k : String) (v : β)
    (hl : c.entries.lookup k = some v) :
    LruCache.getOrCompute f maxsize c k
      = (v, ⟨(k, v) :: c.entries.eraseP (fun p => p.1 == k)⟩, false) := by
  unfold LruCache.getOrCompute
  rw [hl]

/-- A cache miss invokes the underlying function, stores its result at the
front, and drops the last entry when the bound is exceeded. -/
theorem LruCache.getOrCompute_miss {β : Type} (f : String → β) (maxsize : Nat)
    (c : LruCache β) (k : String) (hl : c.entries.lookup k = none) :
    LruCache.getOrCompute f maxsize c k
      = (f k, ⟨if ((k, f k) :: c.entries).length > maxsize
               then ((k, f k) :: c.entries).dropLast
               else (k, f k) :: c.entries⟩, true) := by
  unfold LruCache.getOrCompute
  rw [hl]

/-- Looking up the key of the front entry. -/
theorem lookup_cons_self {β : Type} (k : String) (v : β)
    (l : List (String × β)) : ((k, v) :: l).lookup k = some v := by
  simp [List.lookup]

/-- On a consistent cache the cached call returns the underlying
function's value. -/
theorem cached_value {β : Type} (f : String → β) (c : LruCache β)
    (k : String) (hcons : LruCache.Consistent f c) :
    (cachedStructureFn f c k).1 = f k := by
  cases hl : c.entries.lookup k with
  | some v =>
    have hv : v = f k := hcons (k, v) (lookup_mem hl)
    unfold cachedStructureFn
    rw [LruCache.getOrCompute_hit f structureCacheMaxsize c k v hl]
    exact hv
  | none =>
    unfold cachedStructureFn
    rw [LruCache.getOrCompute_miss f structureCacheMaxsize c k hl]

/-- The cached call preserves consistency with the underlying function. -/
theorem cached_consistent {β : Type} (f : String → β) (c : LruCache β)
    (k : String) (hcons : LruCache.Consistent f c) :
    LruCache.Consistent f (cachedStructureFn f c k).2.1 := by
  cases hl : c.entries.lookup k with
  | some v =>
    have hv : v = f k := hcons (k, v) (lookup_mem hl)
    unfold cachedStructureFn
    rw [LruCache.getOrCompute_hit f structureCacheMaxsize c k v hl]
    intro p hp
    rcases List.mem_cons.mp hp with hkv | hrest
    · subst hkv; exact hv
    · exact hcons p ((List.eraseP_sublist c.entries).subset hrest)
  | none =>
    unfold cachedStructureFn
    rw [LruCache.getOrCompute_miss f structureCacheMaxsize c k hl]
    intro p hp
    by_cases hb : ((k, f k) :: c.entries).length > structureCacheMaxsize
    · simp only [hb, if_true] at hp
      have hp2 : p ∈ (k, f k) :: c.entries :=
        (List.dropLast_sublist _).subset hp
      rcases List.mem_cons.mp hp2 with hkv | hrest
      · subst hkv; rfl
      · exact hcons p hrest
    · simp only [hb, if_false] at hp
      rcases List.mem_cons.mp hp with hkv | hrest
      · subst hkv; rfl
      · exact hcons p hrest

/-- The cached call preserves the 1024-entry bound. -/
theorem cached_length {β : Type} (f : String → β) (c : LruCache β)
    (k : String) (hsize : c.entries.length ≤ 1024) :
    (cachedStructureFn f c k).2.1.entries.length ≤ 1024 := by
  cases hl : c.entries.lookup k with
  | some v =>
    unfold cachedStructureFn
    rw [LruCache.getOrCompute_hit f structureCacheMaxsize c k v hl]
    have herase := List.length_eraseP_add_one (lookup_mem hl)
      (p := fun p => p.1 == k) (by simp)
    simp only [List.length_cons]
    omega
  | none =>
    unfold cachedStructureFn
    rw [LruCache.getOrCompute_miss f structureCacheMaxsize c k hl]
    by_cases hb : ((k, f k) :: c.entries).length > structureCacheMaxsize
    · simp only [hb, if_true]
      rw [List.length_dropLast]
      unfold structureCacheMaxsize at hb
      simp only [List.length_cons] at hb ⊢
      omega
    · simp only [hb, if_false]
      unfold structureCacheMaxsize at hb
      simp only [List.length_cons] at hb ⊢
      omega

/-- After a cached call, the key sits at the front of the cache with the
returned value, so the next call for the same source text is a hit. -/
theorem cached_lookup_after {β : Type} (f : String → β) (c : LruCache β)
    (k : String) :
    (cachedStructureFn f c k).2.1.entries.lookup k
      = some (cachedStructureFn f c k).1 := by
  cases hl : c.entries.lookup k with
  | some v =>
    unfold cachedStructureFn
    rw [LruCache.getOrCompute_hit f structureCacheMaxsize c k v hl]
    exact lookup_cons_self k v _
  | none =>
    unfold cachedStructureFn
    rw [LruCache.getOrCompute_miss f structureCacheMaxsize c k hl]
    by_cases hb : ((k, f k) :: c.entries).length > structureCacheMaxsize
    · simp only [hb, if_true]
      cases hce : c.entries with
      | nil =>
        rw [hce] at hb
        simp [structureCacheMaxsize] at hb
      | cons e rest =>
        rw [List.dropLast_cons₂]
        exact lookup_cons_self k (f k) _
    · simp only [hb, if_false]
      exact lookup_cons_self k (f k) _

/-- C9: on a consistent, within-bound cache, the 1024-entry LRU-cached
structure function is extensionally equal to the uncached one (every call
returns the underlying function's value at the source text), consistency
and the 1024-entry bound are preserved, a repeated call for the same
source text returns the same compiled value without invoking the
underlying function again, and a miss on a full cache evicts exactly the
least-recently-used (last) entry. -/
theorem cachedStructureFn_equals_uncached {β : Type} (f : String → β)
    (c : LruCache β) (k : String) (hcons : LruCache.Consistent f c)
    (hsize : c.entries.length ≤ 1024) :
    (cachedStructureFn f c k).1 = f k ∧
      LruCache.Consistent f (cachedStructureFn f c k).2.1 ∧
      (cachedStructureFn f c k).2.1.entries.length ≤ 1024 ∧
      (cachedStructureFn f (cachedStructureFn f c k).2.1 k).1 = f k ∧
      (cachedStructureFn f (cachedStructureFn f c k).2.1 k).2.2 = false ∧
      (c.entries.lookup k = none → c.entries.length = 1024 →
        (cachedStructureFn f c k).2.1.entries
          = (k, f k) :: c.entries.dropLast) := by
  refine ⟨cached_value f c k hcons, cached_consistent f c k hcons,
    cached_length f c k hsize,
    cached_value f _ k (cached_consistent f c k hcons), ?_, ?_⟩
  · have hl2 := cached_lookup_after f c k
    unfold cachedStructureFn at hl2 ⊢
    rw [LruCache.getOrCompute_hit f structureCacheMaxsize _ k _ hl2]
  · intro h1 h2
    unfold cachedStructureFn
    rw [LruCache.getOrCompute_miss f structureCacheMaxsize c k h1]
    have hgt : ((k, f k) :: c.entries).length > structureCacheMaxsize := by
      unfold structureCacheMaxsize
      simp [List.length_cons, h2]
    simp only [hgt, if_true]
    cases hce : c.entries with
    | nil =>
      rw [hce] at h2
      simp at h2
    | cons e rest =>
      rw [List.dropLast_cons₂]

/-- A concrete one-entry cache consistent with `String.length`. -/
def lruDemo : LruCache Nat := ⟨[("ab", 2)]⟩

/-- Witness for C9 at the concrete cache `lruDemo` and key `"xyz"`. -/
theorem cachedStructureFn_equals_uncached_witness :
    LruCache.Consistent String.length lruDemo ∧
      lruDemo.entries.length ≤ 1024 ∧
      ((cachedStructureFn String.length lruDemo "xyz").1
          = String.length "xyz" ∧
        LruCache.Consistent String.length
          (cachedStructureFn String.length lruDemo "xyz").2.1 ∧
        (cachedStructureFn String.length lruDemo "xyz").2.1.entries.length
          ≤ 1024 ∧
        (cachedStructureFn String.length
            (cachedStructureFn String.length lruDemo "xyz").2.1 "xyz").1
          = String.length "xyz" ∧
        (cachedStructureFn String.length
            (cachedStructureFn String.length lruDemo "xyz").2.1 "xyz").2.2
          = false ∧
        (lruDemo.entries.lookup "xyz" = none →
          lruDemo.entries.length = 1024 →
          (cachedStructureFn String.length lruDemo "xyz").2.1.entries
            = ("xyz", String.length "xyz") :: lruDemo.entries.dropLast)) :=
  ⟨fun p hp => by
      simp only [lruDemo, List.mem_singleton] at hp
      subst hp
      rfl,
    by decide,
    cachedStructureFn_equals_uncached String.length lruDemo "xyz"
      (fun p hp => by
        simp only [lruDemo, List.mem_singleton] at hp
        subst hp
        rfl)
      (by decide)⟩

/-! ## C7 / C10: HTTP routes (`server/routes.py`) -/

/-- Modelled from the spec: the opaque storage collaborator
(`oes/interview/storage.py` is not under `src/`): `put` stores a context
under a fresh opaque key and returns the key, `get` retrieves by key.
Storage state is passed explicitly. -/
structure Storage where
  entries : List (String × InterviewContext) := []
  counter : Nat := 0

/-- `put`: store under a fresh key and return it with the new storage. -/
def Storage.put (s : Storage) (c : InterviewContext) : String × Storage :=
  let key := "k" ++ toString s.counter
  (key, ⟨(key, c) :: s.entries, s.counter + 1⟩)

/-- `get`: retrieve a stored context. -/
def Storage.get (s : Storage) (k : String) : Option InterviewContext :=
  s.entries.lookup k

/-- Modelled from the spec: an interview script as loaded from
configuration (`Interview` in `config/interview.py`, not under `src/`):
question templates and ordered steps. -/
structure Interview where
  questions : List (String × QuestionTemplate) := []
  steps : List Step := []

/-- Modelled from the spec: `make_interview_context`
(`interview/interview.py` is not under `src/`): pair the script with the
state. -/
def make_interview_context (questions : List (String × QuestionTemplate))
    (steps : List Step) (state : InterviewState) : InterviewContext :=
  { state := state, question_templates := questions, steps := steps }

/-- `InterviewStartRequest` (routes.py lines 32-38): target, context and
data, all optional. -/
structure InterviewStartRequest where
  target : Option String := none
  context : List (String × JSONValue) := []
  data : List (String × JSONValue) := []

/-- `InterviewUpdateRequest` (routes.py lines 41-46): stored state key and
optional responses. -/
structure InterviewUpdateRequest where
  state : String
  responses : Option (List (String × JSONValue)) := none

/-- `InterviewResponse` (routes.py lines 49-55): state key, completed
flag, and optional content. -/
structure InterviewResponse where
  state : String
  completed : Bool
  content : Option StepContent := none

/-- Errors surfaced by the request layer: 404 for a missing resource, a
422 bad request for invalid user input, or a propagated server-side
exception. -/
inductive RouteError where
  | notFound
  | badRequest422 (msg : String)
  | serverError (e : InterviewExc)

/-- The fresh state constructed by `start_interview` (routes.py lines
69-73): target, context and data from the request, every other field
defaulted. -/
def fresh_state (req : InterviewStartRequest) : InterviewState :=
  { target := req.target, context := req.context, data := req.data }

/-- `start_interview` (routes.py lines 58-76): look up the interview (404
when unknown), build a fresh state and context, persist it, and respond
with the new key, the fresh state's completed flag, and content `None`.
An error leaves storage unchanged. -/
def start_interview (interviews : List (String × Interview))
    (storage : Storage) (interview_id : String)
    (req : InterviewStartRequest) :
    Storage × Except RouteError InterviewResponse :=
  match interviews.lookup interview_id with
  | none => (storage, .error .notFound)
  | some interview =>
    let state := fresh_state req
    let context :=
      make_interview_context interview.questions interview.steps state
    let p := storage.put context
    (p.2, .ok ⟨p.1, state.completed, none⟩)

/-- `update_interview_route` (routes.py lines 79-95), parameterized by the
update algorithm (`interview/update.py` is not under `src/`): load the
stored context (404 when absent) and run the update; a `ValidationError`
surfaces as a 422 "Invalid input" response, any other exception propagates
as a server-side failure, and in both failure cases storage is unchanged;
only on success does `storage.put` run, and the new key is returned with
the result state's completed flag and the content. -/
def update_interview_route
    (upd : InterviewContext → Option (List (String × JSONValue)) →
      Except InterviewExc (InterviewContext × Option StepContent))
    (storage : Storage) (req : InterviewUpdateRequest) :
    Storage × Except RouteError InterviewResponse :=
  match storage.get req.state with
  | none => (storage, .error .notFound)
  | some context =>
    match upd context req.responses with
    | .error (.validationError _) =>
      (storage, .error (.badRequest422 "Invalid input"))
    | .error e => (storage, .error (.serverError e))
    | .ok (result_ctx, content) =>
      let p := storage.put result_ctx
      (p.2, .ok ⟨p.1, result_ctx.state.completed, content⟩)

/-- C7: a ValidationError from the update algorithm surfaces as a 422
user-correctable error with storage unchanged; any other error propagates
as a server-side failure with storage unchanged; only on success is the
result persisted and its fresh key returned. -/
theorem updateRoute_error_handling
    (upd : InterviewContext → Option (List (String × JSONValue)) →
      Except InterviewExc (InterviewContext × Option StepContent))
    (storage : Storage) (req : InterviewUpdateRequest)
    (ctx : InterviewContext) (hget : storage.get req.state = some ctx) :
    (∀ msg, upd ctx req.responses = .error (.validationError msg) →
      update_interview_route upd storage req
        = (storage, .error (.badRequest422 "Invalid input"))) ∧
      (∀ e, upd ctx req.responses = .error e →
        (∀ msg, e ≠ .validationError msg) →
        update_interview_route upd storage req
          = (storage, .error (.serverError e))) ∧
      (∀ rctx content, upd ctx req.responses = .ok (rctx, content) →
        update_interview_route upd storage req
          = ((storage.put rctx).2,
             .ok ⟨(storage.put rctx).1, rctx.state.completed, content⟩)) := by
  refine ⟨?_, ?_, ?_⟩
  · intro msg h
    unfold update_interview_route
    simp only [hget, h]
  · intro e h hne
    unfold update_interview_route
    simp only [hget, h]
  · intro rctx content h
    unfold update_interview_route
    simp only [hget, h]

/-- A one-entry storage holding `ctxFresh` under key `s0`. -/
def storageOne : Storage := ⟨[("s0", ctxFresh)], 1⟩

/-- A concrete update algorithm that always raises a ValidationError. -/
def updVal : InterviewContext → Option (List (String × JSONValue)) →
    Except InterviewExc (InterviewContext × Option StepContent) :=
  fun _ _ => .error (.validationError "bad")

/-- Witness for C7: a stored context whose update raises a
ValidationError yields the 422 response with storage unchanged. -/
theorem updateRoute_error_handling_witness :
    storageOne.get "s0" = some ctxFresh ∧
      update_interview_route updVal storageOne ⟨"s0", none⟩
        = (storageOne, .error (.badRequest422 "Invalid input")) :=
  ⟨rfl,
    (updateRoute_error_handling updVal storageOne ⟨"s0", none⟩ ctxFresh
      rfl).1 "bad" rfl⟩

/-- The context built and persisted by a successful interview start. -/
def started_context (interview : Interview) (req : InterviewStartRequest) :
    InterviewContext :=
  make_interview_context interview.questions interview.steps (fresh_state req)

/-- C10: starting a known interview responds with exactly the freshly
generated storage key, the fresh state's completed flag (false), and no
content; the fresh state stores the request's target, context and data
unchanged, with nothing answered and no current question, and the stored
context is retrievable under the returned key. -/
theorem start_interview_no_content (interviews : List (String × Interview))
    (storage : Storage) (interview_id : String)
    (req : InterviewStartRequest) (interview : Interview)
    (h : interviews.lookup interview_id = some interview) :
    start_interview interviews storage interview_id req
        = ((storage.put (started_context interview req)).2,
           .ok ⟨(storage.put (started_context interview req)).1,
                (fresh_state req).completed, none⟩) ∧
      (fresh_state req).completed = false ∧
      (fresh_state req).target = req.target ∧
      (fresh_state req).context = req.context ∧
      (fresh_state req).data = req.data ∧
      (fresh_state req).answered_question_ids = ∅ ∧
      (fresh_state req).current_question = none ∧
      (storage.put (started_context interview req)).2.get
          (storage.put (started_context interview req)).1
        = some (started_context interview req) := by
  refine ⟨?_, rfl, rfl, rfl, rfl, rfl, rfl, ?_⟩
  · unfold start_interview
    rw [h]
    rfl
  · unfold Storage.put Storage.get
    exact lookup_cons_self _ _ _

/-- A concrete interview script with one Ask step. -/
def demoInterview : Interview :=
  { questions := [("q1", qTplOne)], steps := [Step.ask { ask := "q1" }] }

/-- Witness for C10 at a concrete interview table, empty storage and
default start request. -/
theorem start_interview_no_content_witness :
    ([("intro", demoInterview)].lookup "intro" = some demoInterview) ∧
      start_interview [("intro", demoInterview)] {} "intro" {}
        = ((Storage.put {} (started_context demoInterview {})).2,
           .ok ⟨(Storage.put {} (started_context demoInterview {})).1,
                (fresh_state {}).completed, none⟩) :=
  ⟨rfl,
    (start_interview_no_content [("intro", demoInterview)] {} "intro" {}
      demoInterview rfl).1⟩

end Interview
